import Mathlib

/-!
Shallow embedding of the authentication token and session-lifecycle
subsystem of the `linked-clone` Go service:

* `internal/domain/entities/session.go` — the `Session` entity and its
  `SetIPAddress` / `SetUserAgent` helpers;
* `internal/infrastructure/.../session_repository.go` — the GORM-backed
  session repository (`Create`, `GetByRefreshToken`, `GetUserActiveSessions`,
  `Update`, `UpdateLastUsedAt`, `RevokeSession`, `RevokeUserSessions`,
  `RevokeSessionByToken`, `DeleteExpiredSessions`);
* `pkg/auth/jwt.go` — the `jwtService` (token issuer);
* `internal/background/session_cleanup.go` — the cleanup scheduler.

Modelling conventions:
* time is a `Nat` counted in hours (a "day" is 24 units); all `time.Now()`
  calls inside one operation are modelled by a single `now` argument, which
  is faithful up to sub-call clock drift;
* the relational store is a list of rows plus the auto-increment counter of
  the `id` primary-key sequence (ids are assigned on `Create` and never
  reused, as with a PostgreSQL sequence);
* GORM `Where(...).First` is `List.find?`, `Where(...).Update/Delete` are
  `List.map` / `List.filter` over the rows, `Order` is `List.mergeSort`,
  `Limit`/`Offset` are `take`/`drop`;
* cryptographic randomness (the refresh secret, jti) is passed in as an
  argument; SHA-256 is an abstract injective tagging function; a signed JWT
  is kept structured (claims + signing method + the key its signature
  verifies under) instead of an opaque string.
-/

namespace LinkedinClone

/-! ## Session entity (`internal/domain/entities/session.go`) -/

/-- Model of `SessionStatus`: `active`, `revoked`, `expired`. -/
inductive SessionStatus where
  | active
  | revoked
  | expired
deriving DecidableEq, Repr

/-- The `Session` GORM entity.  `userEmail`/`userName` stand for the
`User` association that `Preload("User")` materialises. -/
structure Session where
  id : Nat
  userId : Nat
  refreshToken : String
  tokenHash : String
  status : SessionStatus
  userAgent : Option String
  ipAddress : Option String
  expiresAt : Nat
  lastUsedAt : Option Nat
  createdAt : Nat
  userEmail : String
  userName : String
deriving DecidableEq, Repr

namespace Session

/-- Model of `Session.SetIPAddress`: empty string is ignored; the IPv6 loopback
`"::1"` is folded to `"127.0.0.1"`; anything else is stored verbatim. -/
def setIPAddress (s : Session) (ip : String) : Session :=
  if ip = "" then s
  else if ip = "::1" then { s with ipAddress := some "127.0.0.1" }
  else { s with ipAddress := some ip }

/-- Model of `Session.SetUserAgent`: empty string is ignored. -/
def setUserAgent (s : Session) (ua : String) : Session :=
  if ua = "" then s else { s with userAgent := some ua }

end Session

/-! ## Session repository (`session_repository.go`) -/

/-- The session table: rows plus the primary-key sequence counter. -/
structure Store where
  rows : List Session
  nextId : Nat
deriving DecidableEq, Repr

/-- First statement of the repository's empty-string-to-NULL coercion:
`if session.UserAgent != nil && *session.UserAgent == "" { ... = nil }`. -/
def coerceUA (s : Session) : Session :=
  if s.userAgent = some "" then { s with userAgent := none } else s

/-- Second statement of the coercion, for `IPAddress`. -/
def coerceIP (s : Session) : Session :=
  if s.ipAddress = some "" then { s with ipAddress := none } else s

/-- Empty-string-to-NULL coercion performed by the repository's `Create`
and `Update` before writing. -/
def coerceEmpty (s : Session) : Session :=
  coerceIP (coerceUA s)

/-- The row as the database stores it on `Create`: empty strings coerced
to NULL, the next primary key assigned, `CreatedAt` stamped. -/
def storedRow (st : Store) (s : Session) (now : Nat) : Session :=
  { coerceEmpty s with id := st.nextId, createdAt := now }

/-- Model of `sessionRepository.Create`: appends the stored row and advances the
primary-key sequence.  Returns the stored row as well (GORM writes the
assigned id back into the entity). -/
def Store.create (st : Store) (s : Session) (now : Nat) : Store × Session :=
  ({ rows := st.rows ++ [storedRow st s now], nextId := st.nextId + 1 },
   storedRow st s now)

/-- The WHERE clause of `GetByRefreshToken`:
`refresh_token = ? AND status = 'active' AND expires_at > now`. -/
def matchToken (token : String) (now : Nat) (s : Session) : Bool :=
  s.refreshToken = token ∧ s.status = .active ∧ now < s.expiresAt

/-- Model of `sessionRepository.GetByRefreshToken` (with `Preload("User")`). -/
def Store.getByRefreshToken (st : Store) (now : Nat) (token : String) :
    Option Session :=
  st.rows.find? (matchToken token now)

/-- The WHERE clause of `GetUserActiveSessions`. -/
def matchUserActive (userId : Nat) (now : Nat) (s : Session) : Bool :=
  s.userId = userId ∧ s.status = .active ∧ now < s.expiresAt

/-- The ORDER BY of `GetUserActiveSessions`:
`last_used_at DESC NULLS LAST, created_at DESC`. -/
def sessionOrder (a b : Session) : Bool :=
  match a.lastUsedAt, b.lastUsedAt with
  | some x, some y => if x = y then b.createdAt ≤ a.createdAt else y ≤ x
  | some _, none => true
  | none, some _ => false
  | none, none => b.createdAt ≤ a.createdAt

/-- Model of `sessionRepository.GetUserActiveSessions`: filter, order, offset, limit. -/
def Store.getUserActiveSessions (st : Store) (now userId : Nat)
    (limit offset : Nat) : List Session :=
  ((((st.rows.filter (matchUserActive userId now)).mergeSort
      sessionOrder).drop offset).take limit)

/-- Model of `sessionRepository.Update` (GORM `Save`): coerces empty strings to NULL
and overwrites the row with the same primary key. -/
def Store.update (st : Store) (s : Session) : Store :=
  { st with rows := st.rows.map (fun t =>
      if t.id = (coerceEmpty s).id then coerceEmpty s else t) }

/-- Model of `sessionRepository.UpdateLastUsedAt`. -/
def Store.updateLastUsedAt (st : Store) (sessionId : Nat) (t : Nat) : Store :=
  { st with rows := st.rows.map (fun s =>
      if s.id = sessionId then { s with lastUsedAt := some t } else s) }

/-- Model of `sessionRepository.RevokeSession`: `UPDATE ... SET status = 'revoked'
WHERE id = ?` — note: no filter on the current status. -/
def Store.revokeSession (st : Store) (sessionId : Nat) : Store :=
  { st with rows := st.rows.map (fun s =>
      if s.id = sessionId then { s with status := .revoked } else s) }

/-- Model of `sessionRepository.RevokeUserSessions`: revokes the *active* sessions
of a user (`WHERE user_id = ? AND status = 'active'`). -/
def Store.revokeUserSessions (st : Store) (userId : Nat) : Store :=
  { st with rows := st.rows.map (fun s =>
      if s.userId = userId ∧ s.status = .active
      then { s with status := .revoked } else s) }

/-- Model of `sessionRepository.RevokeSessionByToken`: `WHERE refresh_token = ?`,
again with no filter on the current status. -/
def Store.revokeSessionByToken (st : Store) (token : String) : Store :=
  { st with rows := st.rows.map (fun s =>
      if s.refreshToken = token then { s with status := .revoked } else s) }

/-- Model of `sessionRepository.DeleteExpiredSessions`:
`DELETE ... WHERE expires_at < now OR status = 'expired'`. -/
def Store.deleteExpiredSessions (st : Store) (now : Nat) : Store :=
  { st with rows := st.rows.filter (fun s =>
      ¬ (s.expiresAt < now ∨ s.status = .expired)) }

/-! ## JWT token issuer (`pkg/auth/jwt.go`) -/

/-- Model of `JWTClaims`: application claims plus the registered claims the issuer
sets.  The registered temporal claims are optional, as in a raw JWT. -/
structure JWTClaims where
  userID : Nat
  email : String
  username : String
  tokenType : String
  sessionID : Nat
  exp : Option Nat
  nbf : Option Nat
  iat : Option Nat
  issuer : String
  subject : String
  jti : String
deriving DecidableEq, Repr

/-- JWT signing algorithms relevant to `parseToken`'s method check. -/
inductive SigMethod where
  | hs256
  | hs384
  | hs512
  | rs256
  | es256
  | unsigned
deriving DecidableEq, Repr

/-- Whether the algorithm is of the HMAC family (`*jwt.SigningMethodHMAC`). -/
def SigMethod.isHMAC : SigMethod → Bool
  | .hs256 | .hs384 | .hs512 => true
  | _ => false

/-- A serialized JWT, kept structured: its claims, the signing method of
its header, and the key (if any) under which its signature verifies.
`sigKey = none` models an unsigned token or a garbage signature. -/
structure RawToken where
  claims : JWTClaims
  method : SigMethod
  sigKey : Option String
deriving DecidableEq, Repr

/-- Model of `TokenResponse`. -/
structure TokenResponse where
  accessToken : RawToken
  refreshToken : String
  expiresAt : Nat
  refreshExpiresAt : Nat
  sessionID : Nat
deriving DecidableEq, Repr

/-- The issuer's configuration (`jwtService` fields other than the repo). -/
structure JWTConfig where
  secretKey : String
  accessTokenExpiry : Nat
  refreshTokenExpiry : Nat
deriving DecidableEq, Repr

/-- Model of `NewJWTService`: the refresh lifetime defaults to 30 days and is
derived as `accessTokenExpiryHours / 24 * 2` days when the access lifetime
exceeds 24 hours. -/
def NewJWTService (secretKey : String) (accessTokenExpiryHours : Nat) :
    JWTConfig :=
  let refreshTokenExpiryDays :=
    if accessTokenExpiryHours > 24 then accessTokenExpiryHours / 24 * 2
    else 30
  { secretKey := secretKey
    accessTokenExpiry := accessTokenExpiryHours
    refreshTokenExpiry := refreshTokenExpiryDays }

/-- Model of `s.hashToken`: abstract stand-in for hex-encoded SHA-256. -/
def hashToken (token : String) : String :=
  "sha256(" ++ token ++ ")"

/-- The access-token claims both `GenerateTokens` and `RefreshAccessToken`
build, signed with HS256 under the configured secret. -/
def mkAccessToken (cfg : JWTConfig) (userID : Nat) (email username : String)
    (sessionID : Nat) (accessExpiresAt now : Nat) (jti : String) : RawToken :=
  { claims :=
      { userID := userID
        email := email
        username := username
        tokenType := "access"
        sessionID := sessionID
        exp := some accessExpiresAt
        nbf := some now
        iat := some now
        issuer := "linkedin-clone"
        subject := "access_token"
        jti := jti }
    method := .hs256
    sigKey := some cfg.secretKey }

/-- Model of `jwt.ParseWithClaims` with `jwtService.parseToken`'s key function: the
key function rejects any non-HMAC signing method; otherwise the signature
must verify under the configured secret, and the registered temporal
claims (`exp`, `nbf`, when present) must hold at `now`. -/
def parseToken (cfg : JWTConfig) (now : Nat) (tok : RawToken) :
    Except String JWTClaims :=
  if ¬ tok.method.isHMAC then .error "invalid signing method"
  else if tok.sigKey ≠ some cfg.secretKey then .error "signature is invalid"
  else if tok.claims.exp.any (fun e => e ≤ now) then .error "token is expired"
  else if tok.claims.nbf.any (fun n => now < n) then
    .error "token is not valid yet"
  else .ok tok.claims

/-- Model of `jwtService.ValidateToken`. -/
def ValidateToken (cfg : JWTConfig) (now : Nat) (tok : RawToken) :
    Except String JWTClaims :=
  match parseToken cfg now tok with
  | .error e => .error e
  | .ok claims =>
    if claims.tokenType ≠ "access" then
      .error "invalid token type: expected access token"
    else .ok claims

/-- Model of `jwtService.GenerateTokens`.  The freshly generated random refresh
secret and jti are arguments (`refreshToken`, `jti`). -/
def GenerateTokens (cfg : JWTConfig) (st : Store) (now : Nat)
    (refreshToken jti : String) (userID : Nat)
    (email username userAgent ipAddress : String) :
    Except String TokenResponse × Store :=
  let tokenHash := hashToken refreshToken
  let accessExpiresAt := now + cfg.accessTokenExpiry
  let refreshExpiresAt := now + cfg.refreshTokenExpiry * 24
  let session : Session :=
    { id := 0
      userId := userID
      refreshToken := refreshToken
      tokenHash := tokenHash
      status := .active
      userAgent := none
      ipAddress := none
      expiresAt := refreshExpiresAt
      lastUsedAt := none
      createdAt := 0
      userEmail := email
      userName := username }
  let session₁ := (session.setUserAgent userAgent).setIPAddress ipAddress
  let st' := (st.create session₁ now).1
  let stored := (st.create session₁ now).2
  (.ok { accessToken :=
           mkAccessToken cfg userID email username stored.id accessExpiresAt
             now jti
         refreshToken := refreshToken
         expiresAt := accessExpiresAt
         refreshExpiresAt := refreshExpiresAt
         sessionID := stored.id },
   st')

/-- Model of `jwtService.ValidateRefreshToken`: looks the session up (the query
already filters `status = 'active' AND expires_at > now`), flips a session
found expired to `Expired` before failing, touches `LastUsedAt`, and
returns synthetic `refresh` claims. -/
def ValidateRefreshToken (cfg : JWTConfig) (st : Store) (now : Nat)
    (refreshToken : String) : Except String JWTClaims × Store :=
  match st.getByRefreshToken now refreshToken with
  | none => (.error "invalid refresh token", st)
  | some session =>
    if session.status ≠ .active then (.error "session is not active", st)
    else if session.expiresAt < now then
      (.error "refresh token expired",
       st.update { session with status := .expired })
    else
      (.ok { userID := session.userId
             email := session.userEmail
             username := session.userName
             tokenType := "refresh"
             sessionID := session.id
             exp := none, nbf := none, iat := none
             issuer := "", subject := "", jti := "" },
       st.updateLastUsedAt session.id now)

/-- The conditional `DeviceLabel`/`OriginAddress` diffing block of
`RefreshAccessToken`: returns the (possibly) updated session and whether
an update is pending. -/
def refreshSessionDiff (session : Session) (userAgent ipAddress : String) :
    Session × Bool :=
  let uaChanged : Bool := session.userAgent.getD "" ≠ userAgent
  let session₁ := if uaChanged then session.setUserAgent userAgent else session
  let normalizedIP := if ipAddress = "::1" then "127.0.0.1" else ipAddress
  if session₁.ipAddress.getD "" ≠ normalizedIP ∧ normalizedIP ≠ "" then
    (session₁.setIPAddress ipAddress, true)
  else (session₁, uaChanged)

/-- Model of `jwtService.RefreshAccessToken`. -/
def RefreshAccessToken (cfg : JWTConfig) (st : Store) (now : Nat)
    (refreshToken userAgent ipAddress jti : String) :
    Except String TokenResponse × Store :=
  match ValidateRefreshToken cfg st now refreshToken with
  | (.error e, st₁) => (.error e, st₁)
  | (.ok claims, st₁) =>
    match st₁.getByRefreshToken now refreshToken with
    | none => (.error "session not found", st₁)
    | some session =>
      let session' := (refreshSessionDiff session userAgent ipAddress).1
      let updated := (refreshSessionDiff session userAgent ipAddress).2
      let st₂ := if updated then st₁.update session' else st₁
      let accessExpiresAt := now + cfg.accessTokenExpiry
      (.ok { accessToken :=
               mkAccessToken cfg claims.userID claims.email claims.username
                 claims.sessionID accessExpiresAt now jti
             refreshToken := refreshToken
             expiresAt := accessExpiresAt
             refreshExpiresAt := session.expiresAt
             sessionID := session.id },
       st₂)

/-- Model of `jwtService.RevokeSession`. -/
def RevokeSession (st : Store) (sessionId : Nat) : Store :=
  st.revokeSession sessionId

/-- Model of `jwtService.RevokeUserSessions`. -/
def RevokeUserSessions (st : Store) (userId : Nat) : Store :=
  st.revokeUserSessions userId

/-- Model of `jwtService.RevokeRefreshToken`. -/
def RevokeRefreshToken (st : Store) (token : String) : Store :=
  st.revokeSessionByToken token

/-- Model of `jwtService.GetUserActiveSessions`. -/
def GetUserActiveSessions (st : Store) (now userId : Nat)
    (limit offset : Nat) : List Session :=
  st.getUserActiveSessions now userId limit offset

/-- Model of `jwtService.CleanupExpiredSessions`. -/
def CleanupExpiredSessions (st : Store) (now : Nat) : Store :=
  st.deleteExpiredSessions now

/-! ## Cleanup scheduler (`internal/background/session_cleanup.go`)

The scheduler state folds together the `SessionCleanupService` fields and
the program counter of its (single) background goroutine.  `stopClosed`
models the `stopChan` channel, created once in `NewSessionCleanupService`
and closed (never recreated) by `Stop`.  Store failures of
`CleanupExpiredSessions` are environmental, so a sweep event carries a
`storeErr` flag; the goroutine's `select` takes the closed stop channel in
preference to a tick, which matches the real timing (the first `select` is
reached long before the first tick of a fresh ticker). -/

/-- Program counter of the cleanup goroutine. -/
inductive TaskPc where
  | idle
  | initialSweep
  | selectLoop
  | exited
deriving DecidableEq, Repr

/-- Model of `SessionCleanupService` state (flags, counters, the session store). -/
structure Sched where
  running : Bool
  stopClosed : Bool
  pc : TaskPc
  totalRuns : Nat
  failedRuns : Nat
  lastRunTime : Nat
  lastRunStatus : String
  store : Store
deriving DecidableEq, Repr

/-- Model of `NewSessionCleanupService`. -/
def NewSessionCleanupService (store : Store) : Sched :=
  { running := false
    stopClosed := false
    pc := .idle
    totalRuns := 0
    failedRuns := 0
    lastRunTime := 0
    lastRunStatus := "never_run"
    store := store }

/-- Model of `SessionCleanupService.IsRunning`. -/
def IsRunning (s : Sched) : Bool :=
  s.running

/-- Model of `SessionCleanupService.performCleanup`: bumps the total-run counter,
invokes the purge (`CleanupExpiredSessions`), and on error bumps the
failed-run counter; it never touches the `running` flag. -/
def performCleanup (s : Sched) (now : Nat) (storeErr : Bool) : Sched :=
  if storeErr then
    { s with totalRuns := s.totalRuns + 1, lastRunTime := now
             failedRuns := s.failedRuns + 1, lastRunStatus := "failed" }
  else
    { s with totalRuns := s.totalRuns + 1, lastRunTime := now
             store := CleanupExpiredSessions s.store now
             lastRunStatus := "success" }

/-- Events of the scheduler's lifecycle: the `Start`/`Stop` entry points
and the steps of the background goroutine (its pre-loop initial sweep, a
ticker tick received while the stop channel is still open, and observing
the closed stop channel / cancelled context). -/
inductive SchedEvent where
  | start
  | stop
  | taskInit (now : Nat) (storeErr : Bool)
  | taskTick (now : Nat) (storeErr : Bool)
  | taskStop
deriving DecidableEq, Repr

/-- One step of the scheduler state machine. -/
def schedStep (s : Sched) : SchedEvent → Sched
  | .start =>
    if s.running then s
    else { s with running := true, pc := .initialSweep }
  | .stop =>
    if ¬ s.running then s
    else { s with running := false, stopClosed := true }
  | .taskInit now storeErr =>
    if s.pc = .initialSweep then
      { performCleanup s now storeErr with pc := .selectLoop }
    else s
  | .taskTick now storeErr =>
    if s.pc = .selectLoop ∧ ¬ s.stopClosed then performCleanup s now storeErr
    else s
  | .taskStop =>
    if s.pc = .selectLoop ∧ s.stopClosed then { s with pc := .exited }
    else s

/-- A sequence of scheduler events. -/
def schedRun (s : Sched) (evs : List SchedEvent) : Sched :=
  evs.foldl schedStep s

/-! ## The issuer's operations as a state machine over the store -/

/-- One invocation of a store-touching issuer operation, with all the
per-call inputs (call time, randomness, client data) packed in. -/
inductive Op where
  | generateTokens (now : Nat) (refreshToken jti : String) (userID : Nat)
      (email username userAgent ipAddress : String)
  | validateRefreshToken (now : Nat) (token : String)
  | refreshAccessToken (now : Nat) (token userAgent ipAddress jti : String)
  | revokeSession (sessionId : Nat)
  | revokeUserSessions (userId : Nat)
  | revokeRefreshToken (token : String)
  | cleanup (now : Nat)
deriving DecidableEq, Repr

/-- The store after one issuer operation. -/
def stepOp (cfg : JWTConfig) (st : Store) : Op → Store
  | .generateTokens now rt jti uid email uname ua ip =>
    (GenerateTokens cfg st now rt jti uid email uname ua ip).2
  | .validateRefreshToken now t => (ValidateRefreshToken cfg st now t).2
  | .refreshAccessToken now t ua ip jti =>
    (RefreshAccessToken cfg st now t ua ip jti).2
  | .revokeSession sid => RevokeSession st sid
  | .revokeUserSessions uid => RevokeUserSessions st uid
  | .revokeRefreshToken t => RevokeRefreshToken st t
  | .cleanup now => CleanupExpiredSessions st now

/-- The store after a sequence of issuer operations. -/
def runOps (cfg : JWTConfig) (st : Store) (ops : List Op) : Store :=
  ops.foldl (stepOp cfg) st

/-- The persisted status of the session with primary key `id`. -/
def statusOf (st : Store) (id : Nat) : Option SessionStatus :=
  (st.rows.find? (fun s => s.id = id)).map Session.status

/-- Store well-formedness: primary keys are distinct and below the
sequence counter (as the database enforces). -/
def WF (st : Store) : Prop :=
  (st.rows.map Session.id).Nodup ∧ ∀ s ∈ st.rows, s.id < st.nextId

/-! ## Concrete sample data for closed-instance checks -/

/-- A concrete session row used in closed instances. -/
def sampleSession (idv uid : Nat) (tok : String) (stat : SessionStatus)
    (expAt : Nat) : Session :=
  { id := idv, userId := uid, refreshToken := tok,
    tokenHash := hashToken tok, status := stat, userAgent := none,
    ipAddress := none, expiresAt := expAt, lastUsedAt := none,
    createdAt := 0, userEmail := "e", userName := "u" }

/-- A concrete issuer configuration (default 24-hour access lifetime). -/
def sampleCfg : JWTConfig := NewJWTService "secret" 24

/-- A one-row store holding an active, unexpired session. -/
def sampleStore1 : Store :=
  { rows := [sampleSession 1 7 "t" .active 100], nextId := 2 }

/-- A concrete scheduler state sitting in its select loop. -/
def sampleSched : Sched :=
  { running := true, stopClosed := false, pc := .selectLoop,
    totalRuns := 3, failedRuns := 1, lastRunTime := 0,
    lastRunStatus := "success", store := { rows := [], nextId := 1 } }

/-- A concrete scheduler state right after `Stop()` has returned. -/
def sampleStoppedSched : Sched :=
  { running := false, stopClosed := true, pc := .exited, totalRuns := 5,
    failedRuns := 0, lastRunTime := 0, lastRunStatus := "success",
    store := { rows := [], nextId := 1 } }

/-- Concrete claims for token-validation instances. -/
def sampleClaims : JWTClaims :=
  { userID := 7, email := "e", username := "u", tokenType := "access",
    sessionID := 1, exp := some 100, nbf := some 0, iat := some 0,
    issuer := "linkedin-clone", subject := "access_token", jti := "j" }

/-- A token carrying an RSA (non-HMAC) signature header. -/
def sampleBadToken : RawToken :=
  { claims := sampleClaims, method := .rs256, sigKey := some "secret" }

/-! ## Field-preservation helper lemmas -/

theorem setIPAddress_id (s : Session) (ip : String) :
    (s.setIPAddress ip).id = s.id := by
  unfold Session.setIPAddress; split
  · rfl
  · split <;> rfl

theorem setIPAddress_status (s : Session) (ip : String) :
    (s.setIPAddress ip).status = s.status := by
  unfold Session.setIPAddress; split
  · rfl
  · split <;> rfl

theorem setIPAddress_refreshToken (s : Session) (ip : String) :
    (s.setIPAddress ip).refreshToken = s.refreshToken := by
  unfold Session.setIPAddress; split
  · rfl
  · split <;> rfl

theorem setIPAddress_expiresAt (s : Session) (ip : String) :
    (s.setIPAddress ip).expiresAt = s.expiresAt := by
  unfold Session.setIPAddress; split
  · rfl
  · split <;> rfl

theorem setIPAddress_lastUsedAt (s : Session) (ip : String) :
    (s.setIPAddress ip).lastUsedAt = s.lastUsedAt := by
  unfold Session.setIPAddress; split
  · rfl
  · split <;> rfl

theorem setIPAddress_userAgent (s : Session) (ip : String) :
    (s.setIPAddress ip).userAgent = s.userAgent := by
  unfold Session.setIPAddress; split
  · rfl
  · split <;> rfl

theorem setUserAgent_id (s : Session) (ua : String) :
    (s.setUserAgent ua).id = s.id := by
  unfold Session.setUserAgent; split <;> rfl

theorem setUserAgent_status (s : Session) (ua : String) :
    (s.setUserAgent ua).status = s.status := by
  unfold Session.setUserAgent; split <;> rfl

theorem setUserAgent_refreshToken (s : Session) (ua : String) :
    (s.setUserAgent ua).refreshToken = s.refreshToken := by
  unfold Session.setUserAgent; split <;> rfl

theorem setUserAgent_expiresAt (s : Session) (ua : String) :
    (s.setUserAgent ua).expiresAt = s.expiresAt := by
  unfold Session.setUserAgent; split <;> rfl

theorem setUserAgent_lastUsedAt (s : Session) (ua : String) :
    (s.setUserAgent ua).lastUsedAt = s.lastUsedAt := by
  unfold Session.setUserAgent; split <;> rfl

theorem setUserAgent_ipAddress (s : Session) (ua : String) :
    (s.setUserAgent ua).ipAddress = s.ipAddress := by
  unfold Session.setUserAgent; split <;> rfl

theorem coerceEmpty_id (s : Session) : (coerceEmpty s).id = s.id := by
  unfold coerceEmpty coerceIP coerceUA; split <;> split <;> rfl

theorem coerceEmpty_status (s : Session) :
    (coerceEmpty s).status = s.status := by
  unfold coerceEmpty coerceIP coerceUA; split <;> split <;> rfl

theorem coerceEmpty_refreshToken (s : Session) :
    (coerceEmpty s).refreshToken = s.refreshToken := by
  unfold coerceEmpty coerceIP coerceUA; split <;> split <;> rfl

theorem coerceEmpty_expiresAt (s : Session) :
    (coerceEmpty s).expiresAt = s.expiresAt := by
  unfold coerceEmpty coerceIP coerceUA; split <;> split <;> rfl

theorem coerceEmpty_lastUsedAt (s : Session) :
    (coerceEmpty s).lastUsedAt = s.lastUsedAt := by
  unfold coerceEmpty coerceIP coerceUA; split <;> split <;> rfl

/-! ## `statusOf` and `WF` machinery -/

theorem find?_id_map (rows : List Session) (f : Session → Session) (idv : Nat)
    (hf : ∀ s, (f s).id = s.id) :
    (rows.map f).find? (fun s => s.id = idv) =
      (rows.find? (fun s => s.id = idv)).map f := by
  rw [List.find?_map]
  have hp : ((fun s : Session => decide (s.id = idv)) ∘ f) =
      (fun s : Session => decide (s.id = idv)) := by
    funext s
    simp [Function.comp, hf]
  rw [hp]

theorem statusOf_mapStore (st : Store) (f : Session → Session) (idv : Nat)
    (hf : ∀ s, (f s).id = s.id) :
    statusOf { st with rows := st.rows.map f } idv =
      (st.rows.find? (fun s => s.id = idv)).map (fun s => (f s).status) := by
  unfold statusOf
  have : ({ st with rows := st.rows.map f } : Store).rows = st.rows.map f := rfl
  rw [this, find?_id_map st.rows f idv hf]
  cases st.rows.find? (fun s => s.id = idv) <;> rfl

theorem statusOf_mapStore_pres (st : Store) (f : Session → Session) (idv : Nat)
    (hf : ∀ s, (f s).id = s.id) (hst : ∀ s, (f s).status = s.status) :
    statusOf { st with rows := st.rows.map f } idv = statusOf st idv := by
  rw [statusOf_mapStore st f idv hf]
  unfold statusOf
  cases st.rows.find? (fun s => s.id = idv) with
  | none => rfl
  | some a => simp [hst]

theorem statusOf_mapStore_rev (st : Store) (f : Session → Session) (idv : Nat)
    (b : SessionStatus) (hf : ∀ s, (f s).id = s.id)
    (hst : ∀ s, (f s).status = s.status ∨ (f s).status = .revoked)
    (h : statusOf { st with rows := st.rows.map f } idv = some b) :
    ∃ a, statusOf st idv = some a ∧ (b = a ∨ b = .revoked) := by
  rw [statusOf_mapStore st f idv hf] at h
  unfold statusOf
  cases hfind : st.rows.find? (fun s => s.id = idv) with
  | none => rw [hfind] at h; simp at h
  | some a =>
    rw [hfind] at h
    simp only [Option.map_some', Option.some.injEq] at h
    subst h
    simp only [Option.map_some', Option.some.injEq]
    exact ⟨a.status, rfl, hst a⟩

theorem mem_of_statusOf_eq_some (st : Store) (idv : Nat) (b : SessionStatus)
    (h : statusOf st idv = some b) :
    ∃ s ∈ st.rows, s.id = idv ∧ s.status = b := by
  unfold statusOf at h
  cases hfind : st.rows.find? (fun s => s.id = idv) with
  | none => rw [hfind] at h; simp at h
  | some a =>
    rw [hfind] at h
    simp only [Option.map_some', Option.some.injEq] at h
    have ha := List.find?_some hfind
    simp at ha
    exact ⟨a, List.mem_of_find?_eq_some hfind, ha, h⟩

theorem statusOf_eq_none_iff (st : Store) (idv : Nat) :
    statusOf st idv = none ↔ ∀ s ∈ st.rows, s.id ≠ idv := by
  unfold statusOf
  rw [Option.map_eq_none', List.find?_eq_none]
  constructor
  · intro h s hs
    have := h s hs
    simpa using this
  · intro h s hs
    simpa using h s hs

theorem eq_of_mem_of_id_eq (rows : List Session)
    (h : (rows.map Session.id).Nodup) {a b : Session}
    (ha : a ∈ rows) (hb : b ∈ rows) (hid : a.id = b.id) : a = b :=
  List.inj_on_of_nodup_map h ha hb hid

theorem wf_mapStore (st : Store) (f : Session → Session)
    (hf : ∀ s, (f s).id = s.id) (h : WF st) :
    WF { st with rows := st.rows.map f } := by
  obtain ⟨h1, h2⟩ := h
  constructor
  · have heq : (st.rows.map f).map Session.id = st.rows.map Session.id := by
      rw [List.map_map]
      exact List.map_congr_left (fun s _ => hf s)
    rw [heq]; exact h1
  · intro s hs
    obtain ⟨t, ht, rfl⟩ := List.mem_map.mp hs
    rw [hf]; exact h2 t ht

theorem wf_filterStore (st : Store) (p : Session → Bool) (h : WF st) :
    WF { st with rows := st.rows.filter p } := by
  obtain ⟨h1, h2⟩ := h
  constructor
  · exact ((st.rows.filter_sublist).map Session.id).nodup h1
  · intro s hs
    exact h2 s (List.mem_of_mem_filter hs)

theorem storedRow_id (st : Store) (s : Session) (now : Nat) :
    (storedRow st s now).id = st.nextId := rfl

theorem wf_create (st : Store) (s : Session) (now : Nat) (h : WF st) :
    WF (st.create s now).1 := by
  obtain ⟨h1, h2⟩ := h
  unfold Store.create
  constructor
  · simp only [List.map_append, List.map_cons, List.map_nil]
    rw [List.nodup_append]
    refine ⟨h1, List.nodup_singleton _, ?_⟩
    intro x hx hy
    simp only [List.mem_singleton] at hy
    obtain ⟨t, ht, rfl⟩ := List.mem_map.mp hx
    have := h2 t ht
    rw [storedRow_id] at hy
    omega
  · intro t ht
    rcases List.mem_append.mp ht with hmem | hmem
    · have := h2 t hmem
      simp only []
      omega
    · simp only [List.mem_singleton] at hmem
      subst hmem
      simp [storedRow_id]

theorem statusOf_mapStore_pres_mem (st : Store) (f : Session → Session)
    (idv : Nat) (hf : ∀ s, (f s).id = s.id)
    (hst : ∀ s ∈ st.rows, (f s).status = s.status) :
    statusOf { st with rows := st.rows.map f } idv = statusOf st idv := by
  rw [statusOf_mapStore st f idv hf]
  unfold statusOf
  cases hfind : st.rows.find? (fun s => s.id = idv) with
  | none => rfl
  | some a => simp [hst a (List.mem_of_find?_eq_some hfind)]

theorem statusOf_mapStore_none (st : Store) (f : Session → Session)
    (idv : Nat) (hf : ∀ s, (f s).id = s.id) (h : statusOf st idv = none) :
    statusOf { st with rows := st.rows.map f } idv = none := by
  rw [statusOf_mapStore st f idv hf]
  unfold statusOf at h
  rw [Option.map_eq_none'.mp h]
  rfl

theorem statusOf_create (st : Store) (s : Session) (now idv : Nat)
    (hid : idv < st.nextId) :
    statusOf (st.create s now).1 idv = statusOf st idv := by
  unfold statusOf Store.create
  dsimp only
  rw [List.find?_append]
  cases hfind : st.rows.find? (fun t => t.id = idv) with
  | some a => rfl
  | none =>
    have hne : (st.nextId = idv) = False := by simp; omega
    simp [List.find?, storedRow_id, hne]

theorem statusOf_filter_some (st : Store) (p : Session → Bool) (idv : Nat)
    (hnd : (st.rows.map Session.id).Nodup) (b : SessionStatus)
    (h : statusOf { st with rows := st.rows.filter p } idv = some b) :
    statusOf st idv = some b := by
  obtain ⟨a, hamem, haid, hast⟩ :=
    mem_of_statusOf_eq_some { st with rows := st.rows.filter p } idv b h
  have hamem' : a ∈ st.rows := List.mem_of_mem_filter hamem
  unfold statusOf
  cases hg : st.rows.find? (fun s => s.id = idv) with
  | none =>
    rw [List.find?_eq_none] at hg
    exact absurd haid (by simpa using hg a hamem')
  | some c =>
    have hcid := List.find?_some hg
    simp only [decide_eq_true_eq] at hcid
    have hceq : c = a :=
      eq_of_mem_of_id_eq st.rows hnd (List.mem_of_find?_eq_some hg) hamem'
        (by rw [hcid, haid])
    rw [hceq]
    simp [hast]

theorem statusOf_filter_none (st : Store) (p : Session → Bool) (idv : Nat)
    (h : statusOf st idv = none) :
    statusOf { st with rows := st.rows.filter p } idv = none := by
  rw [statusOf_eq_none_iff] at h ⊢
  intro s hs
  exact h s (List.mem_of_mem_filter hs)

/-! ## Lookup and refresh-validation characterizations -/

theorem getByRefreshToken_props {st : Store} {now : Nat} {t : String}
    {s : Session} (h : st.getByRefreshToken now t = some s) :
    s ∈ st.rows ∧ s.refreshToken = t ∧ s.status = .active ∧
      now < s.expiresAt := by
  unfold Store.getByRefreshToken at h
  have hm := List.find?_some h
  simp only [matchToken, decide_eq_true_eq] at hm
  exact ⟨List.mem_of_find?_eq_some h, hm.1, hm.2.1, hm.2.2⟩

/-- The synthetic `refresh` claims `ValidateRefreshToken` builds on a hit. -/
def refreshClaims (s : Session) : JWTClaims :=
  { userID := s.userId
    email := s.userEmail
    username := s.userName
    tokenType := "refresh"
    sessionID := s.id
    exp := none, nbf := none, iat := none
    issuer := "", subject := "", jti := "" }

theorem vrt_none (cfg : JWTConfig) (st : Store) (now : Nat) (t : String)
    (h : st.getByRefreshToken now t = none) :
    ValidateRefreshToken cfg st now t = (.error "invalid refresh token", st) := by
  unfold ValidateRefreshToken
  rw [h]

theorem vrt_ok (cfg : JWTConfig) (st : Store) (now : Nat) (t : String)
    (s : Session) (h : st.getByRefreshToken now t = some s) :
    ValidateRefreshToken cfg st now t =
      (.ok (refreshClaims s), st.updateLastUsedAt s.id now) := by
  obtain ⟨hmem, hrt, hact, hexp⟩ := getByRefreshToken_props h
  unfold ValidateRefreshToken
  rw [h]
  simp only [refreshClaims]
  rw [if_neg (by simp [hact]), if_neg (by omega)]

theorem find?_map_invariant (rows : List Session) (f : Session → Session)
    (p : Session → Bool) (hp : ∀ s, p (f s) = p s) :
    (rows.map f).find? p = (rows.find? p).map f := by
  rw [List.find?_map]
  have heq : (p ∘ f) = p := funext fun s => hp s
  rw [heq]

theorem matchToken_touch (t : String) (now sid tnow : Nat) (s : Session) :
    matchToken t now
      (if s.id = sid then { s with lastUsedAt := some tnow } else s) =
      matchToken t now s := by
  by_cases h : s.id = sid <;> simp [matchToken, h]

theorem getByRefreshToken_touch (st : Store) (sid tnow now : Nat)
    (t : String) :
    (st.updateLastUsedAt sid tnow).getByRefreshToken now t =
      (st.getByRefreshToken now t).map
        (fun s => if s.id = sid then { s with lastUsedAt := some tnow }
                  else s) := by
  unfold Store.getByRefreshToken Store.updateLastUsedAt
  dsimp only
  exact find?_map_invariant st.rows _ _ (matchToken_touch t now sid tnow)

theorem refreshSessionDiff_id (session : Session) (ua ip : String) :
    (refreshSessionDiff session ua ip).1.id = session.id := by
  unfold refreshSessionDiff
  dsimp only
  split <;> (try split) <;> (try split) <;>
    simp [setIPAddress_id, setUserAgent_id]

theorem refreshSessionDiff_status (session : Session) (ua ip : String) :
    (refreshSessionDiff session ua ip).1.status = session.status := by
  unfold refreshSessionDiff
  dsimp only
  split <;> (try split) <;> (try split) <;>
    simp [setIPAddress_status, setUserAgent_status]

theorem refreshSessionDiff_expiresAt (session : Session) (ua ip : String) :
    (refreshSessionDiff session ua ip).1.expiresAt = session.expiresAt := by
  unfold refreshSessionDiff
  dsimp only
  split <;> (try split) <;> (try split) <;>
    simp [setIPAddress_expiresAt, setUserAgent_expiresAt]

theorem refreshSessionDiff_lastUsedAt (session : Session) (ua ip : String) :
    (refreshSessionDiff session ua ip).1.lastUsedAt = session.lastUsedAt := by
  unfold refreshSessionDiff
  dsimp only
  split <;> (try split) <;> (try split) <;>
    simp [setIPAddress_lastUsedAt, setUserAgent_lastUsedAt]

theorem refreshSessionDiff_refreshToken (session : Session) (ua ip : String) :
    (refreshSessionDiff session ua ip).1.refreshToken =
      session.refreshToken := by
  unfold refreshSessionDiff
  dsimp only
  split <;> (try split) <;> (try split) <;>
    simp [setIPAddress_refreshToken, setUserAgent_refreshToken]

theorem statusOf_touch (st : Store) (sid tnow idv : Nat) :
    statusOf (st.updateLastUsedAt sid tnow) idv = statusOf st idv := by
  unfold Store.updateLastUsedAt
  exact statusOf_mapStore_pres st _ idv
    (fun s => by by_cases h : s.id = sid <;> simp [h])
    (fun s => by by_cases h : s.id = sid <;> simp [h])

theorem wf_touch (st : Store) (sid tnow : Nat) (h : WF st) :
    WF (st.updateLastUsedAt sid tnow) := by
  unfold Store.updateLastUsedAt
  exact wf_mapStore st _ (fun s => by by_cases hh : s.id = sid <;> simp [hh]) h

theorem statusOf_vrt (cfg : JWTConfig) (st : Store) (now : Nat) (t : String)
    (idv : Nat) :
    statusOf (ValidateRefreshToken cfg st now t).2 idv = statusOf st idv := by
  cases hfind : st.getByRefreshToken now t with
  | none => rw [vrt_none cfg st now t hfind]
  | some s =>
    rw [vrt_ok cfg st now t s hfind]
    exact statusOf_touch st s.id now idv

theorem statusOf_refresh (cfg : JWTConfig) (st : Store) (now : Nat)
    (t ua ip jti : String) (idv : Nat) (hWF : WF st) :
    statusOf (RefreshAccessToken cfg st now t ua ip jti).2 idv =
      statusOf st idv := by
  unfold RefreshAccessToken
  cases hfind : st.getByRefreshToken now t with
  | none =>
    rw [vrt_none cfg st now t hfind]
  | some s =>
    rw [vrt_ok cfg st now t s hfind]
    dsimp only
    have hA : (st.updateLastUsedAt s.id now).getByRefreshToken now t =
        some { s with lastUsedAt := some now } := by
      rw [getByRefreshToken_touch st s.id now now t, hfind]
      simp
    rw [hA]
    dsimp only
    obtain ⟨hAmem, -, -, -⟩ := getByRefreshToken_props hA
    have hW₁ : WF (st.updateLastUsedAt s.id now) := wf_touch st s.id now hWF
    split
    · -- the diff found a change and `Update` (Save) is called
      unfold Store.update
      rw [statusOf_mapStore_pres_mem _ _ idv ?hf ?hst]
      · exact statusOf_touch st s.id now idv
      case hf =>
        intro u
        by_cases hh : u.id = (coerceEmpty ((refreshSessionDiff
            { s with lastUsedAt := some now } ua ip).1)).id <;> simp [hh]
      case hst =>
        intro u hu
        by_cases hh : u.id = (coerceEmpty ((refreshSessionDiff
            { s with lastUsedAt := some now } ua ip).1)).id
        · have hid' : u.id = ({ s with lastUsedAt := some now } : Session).id := by
            rw [hh, coerceEmpty_id, refreshSessionDiff_id]
          have hu_eq : u = { s with lastUsedAt := some now } :=
            eq_of_mem_of_id_eq _ hW₁.1 hu hAmem hid'
          rw [if_pos hh, coerceEmpty_status, refreshSessionDiff_status, hu_eq]
        · rw [if_neg hh]
    · exact statusOf_touch st s.id now idv

/-- The store `RefreshAccessToken` leaves behind is the input store, a
`LastUsedAt` touch of it, or a `Save` over such a touch. -/
theorem refresh_snd_char (cfg : JWTConfig) (st : Store) (now : Nat)
    (t ua ip jti : String) :
    (RefreshAccessToken cfg st now t ua ip jti).2 = st ∨
    (∃ sid, (RefreshAccessToken cfg st now t ua ip jti).2 =
        st.updateLastUsedAt sid now) ∨
    (∃ sid s', (RefreshAccessToken cfg st now t ua ip jti).2 =
        (st.updateLastUsedAt sid now).update s') := by
  unfold RefreshAccessToken
  cases hfind : st.getByRefreshToken now t with
  | none =>
    rw [vrt_none cfg st now t hfind]
    left; rfl
  | some s =>
    rw [vrt_ok cfg st now t s hfind]
    dsimp only
    have hA : (st.updateLastUsedAt s.id now).getByRefreshToken now t =
        some { s with lastUsedAt := some now } := by
      rw [getByRefreshToken_touch st s.id now now t, hfind]
      simp
    rw [hA]
    dsimp only
    split
    · right; right
      exact ⟨s.id, _, rfl⟩
    · right; left
      exact ⟨s.id, rfl⟩

theorem wf_update (st : Store) (s : Session) (h : WF st) :
    WF (st.update s) := by
  unfold Store.update
  exact wf_mapStore st _
    (fun u => by by_cases hh : u.id = (coerceEmpty s).id <;> simp [hh]) h

theorem wf_vrt (cfg : JWTConfig) (st : Store) (now : Nat) (t : String)
    (h : WF st) : WF (ValidateRefreshToken cfg st now t).2 := by
  cases hfind : st.getByRefreshToken now t with
  | none => rw [vrt_none cfg st now t hfind]; exact h
  | some s => rw [vrt_ok cfg st now t s hfind]; exact wf_touch st s.id now h

theorem wf_refresh (cfg : JWTConfig) (st : Store) (now : Nat)
    (t ua ip jti : String) (h : WF st) :
    WF (RefreshAccessToken cfg st now t ua ip jti).2 := by
  rcases refresh_snd_char cfg st now t ua ip jti with heq | ⟨sid, heq⟩ |
      ⟨sid, s', heq⟩ <;> rw [heq]
  · exact h
  · exact wf_touch st sid now h
  · exact wf_update _ s' (wf_touch st sid now h)

theorem nextId_touch (st : Store) (sid tnow : Nat) :
    (st.updateLastUsedAt sid tnow).nextId = st.nextId := rfl

theorem nextId_update (st : Store) (s : Session) :
    (st.update s).nextId = st.nextId := rfl

theorem stepOp_nextId (cfg : JWTConfig) (st : Store) (op : Op) :
    st.nextId ≤ (stepOp cfg st op).nextId := by
  cases op with
  | generateTokens now rt jti uid email uname ua ip =>
    unfold stepOp GenerateTokens
    dsimp only
    unfold Store.create
    dsimp only
    omega
  | validateRefreshToken now t =>
    show st.nextId ≤ (ValidateRefreshToken cfg st now t).2.nextId
    cases hfind : st.getByRefreshToken now t with
    | none => rw [vrt_none cfg st now t hfind]
    | some s => rw [vrt_ok cfg st now t s hfind]; exact Nat.le_refl _
  | refreshAccessToken now t ua ip jti =>
    show st.nextId ≤ (RefreshAccessToken cfg st now t ua ip jti).2.nextId
    rcases refresh_snd_char cfg st now t ua ip jti with heq | ⟨sid, heq⟩ |
        ⟨sid, s', heq⟩ <;> rw [heq] <;> exact Nat.le_refl _
  | revokeSession sid => exact Nat.le_refl _
  | revokeUserSessions uid => exact Nat.le_refl _
  | revokeRefreshToken t => exact Nat.le_refl _
  | cleanup now => exact Nat.le_refl _

theorem wf_stepOp (cfg : JWTConfig) (st : Store) (op : Op) (h : WF st) :
    WF (stepOp cfg st op) := by
  cases op with
  | generateTokens now rt jti uid email uname ua ip =>
    unfold stepOp GenerateTokens
    dsimp only
    exact wf_create st _ now h
  | validateRefreshToken now t => exact wf_vrt cfg st now t h
  | refreshAccessToken now t ua ip jti => exact wf_refresh cfg st now t ua ip jti h
  | revokeSession sid =>
    unfold stepOp RevokeSession Store.revokeSession
    exact wf_mapStore st _ (fun s => by by_cases hh : s.id = sid <;> simp [hh]) h
  | revokeUserSessions uid =>
    unfold stepOp RevokeUserSessions Store.revokeUserSessions
    exact wf_mapStore st _
      (fun s => by by_cases hh : s.userId = uid ∧ s.status = .active <;> simp [hh]) h
  | revokeRefreshToken t =>
    unfold stepOp RevokeRefreshToken Store.revokeSessionByToken
    exact wf_mapStore st _
      (fun s => by by_cases hh : s.refreshToken = t <;> simp [hh]) h
  | cleanup now =>
    unfold stepOp CleanupExpiredSessions Store.deleteExpiredSessions
    exact wf_filterStore st _ h

theorem stepOp_status (cfg : JWTConfig) (st : Store) (op : Op) (idv : Nat)
    (b : SessionStatus) (hWF : WF st) (hid : idv < st.nextId)
    (h : statusOf (stepOp cfg st op) idv = some b) :
    ∃ a, statusOf st idv = some a ∧ (b = a ∨ b = .revoked) := by
  cases op with
  | generateTokens now rt jti uid email uname ua ip =>
    refine ⟨b, ?_, Or.inl rfl⟩
    rw [← h]
    unfold stepOp GenerateTokens
    dsimp only
    exact (statusOf_create st _ now idv hid).symm
  | validateRefreshToken now t =>
    refine ⟨b, ?_, Or.inl rfl⟩
    rw [← h]
    exact (statusOf_vrt cfg st now t idv).symm
  | refreshAccessToken now t ua ip jti =>
    refine ⟨b, ?_, Or.inl rfl⟩
    rw [← h]
    exact (statusOf_refresh cfg st now t ua ip jti idv hWF).symm
  | revokeSession sid =>
    unfold stepOp RevokeSession Store.revokeSession at h
    exact statusOf_mapStore_rev st _ idv b
      (fun s => by by_cases hh : s.id = sid <;> simp [hh])
      (fun s => by by_cases hh : s.id = sid <;> simp [hh]) h
  | revokeUserSessions uid =>
    unfold stepOp RevokeUserSessions Store.revokeUserSessions at h
    exact statusOf_mapStore_rev st _ idv b
      (fun s => by
        by_cases hh : s.userId = uid ∧ s.status = .active <;> simp [hh])
      (fun s => by
        by_cases hh : s.userId = uid ∧ s.status = .active <;> simp [hh]) h
  | revokeRefreshToken t =>
    unfold stepOp RevokeRefreshToken Store.revokeSessionByToken at h
    exact statusOf_mapStore_rev st _ idv b
      (fun s => by by_cases hh : s.refreshToken = t <;> simp [hh])
      (fun s => by by_cases hh : s.refreshToken = t <;> simp [hh]) h
  | cleanup now =>
    refine ⟨b, ?_, Or.inl rfl⟩
    unfold stepOp CleanupExpiredSessions Store.deleteExpiredSessions at h
    exact statusOf_filter_some st _ idv hWF.1 b h

theorem stepOp_none (cfg : JWTConfig) (st : Store) (op : Op) (idv : Nat)
    (hWF : WF st) (hid : idv < st.nextId) (h : statusOf st idv = none) :
    statusOf (stepOp cfg st op) idv = none := by
  cases op with
  | generateTokens now rt jti uid email uname ua ip =>
    unfold stepOp GenerateTokens
    dsimp only
    rw [statusOf_create st _ now idv hid]
    exact h
  | validateRefreshToken now t =>
    show statusOf (ValidateRefreshToken cfg st now t).2 idv = none
    rw [statusOf_vrt cfg st now t idv]; exact h
  | refreshAccessToken now t ua ip jti =>
    show statusOf (RefreshAccessToken cfg st now t ua ip jti).2 idv = none
    rw [statusOf_refresh cfg st now t ua ip jti idv hWF]; exact h
  | revokeSession sid =>
    unfold stepOp RevokeSession Store.revokeSession
    exact statusOf_mapStore_none st _ idv
      (fun s => by by_cases hh : s.id = sid <;> simp [hh]) h
  | revokeUserSessions uid =>
    unfold stepOp RevokeUserSessions Store.revokeUserSessions
    exact statusOf_mapStore_none st _ idv
      (fun s => by
        by_cases hh : s.userId = uid ∧ s.status = .active <;> simp [hh]) h
  | revokeRefreshToken t =>
    unfold stepOp RevokeRefreshToken Store.revokeSessionByToken
    exact statusOf_mapStore_none st _ idv
      (fun s => by by_cases hh : s.refreshToken = t <;> simp [hh]) h
  | cleanup now =>
    unfold stepOp CleanupExpiredSessions Store.deleteExpiredSessions
    exact statusOf_filter_none st _ idv h

theorem runOps_cons (cfg : JWTConfig) (st : Store) (op : Op) (ops : List Op) :
    runOps cfg st (op :: ops) = runOps cfg (stepOp cfg st op) ops := rfl

theorem runOps_none (cfg : JWTConfig) (st : Store) (ops : List Op) (idv : Nat)
    (hWF : WF st) (hid : idv < st.nextId) (h : statusOf st idv = none) :
    statusOf (runOps cfg st ops) idv = none := by
  induction ops generalizing st with
  | nil => exact h
  | cons op rest ih =>
    rw [runOps_cons]
    exact ih (stepOp cfg st op) (wf_stepOp cfg st op hWF)
      (Nat.lt_of_lt_of_le hid (stepOp_nextId cfg st op))
      (stepOp_none cfg st op idv hWF hid h)

theorem runOps_status (cfg : JWTConfig) (st : Store) (ops : List Op)
    (idv : Nat) (a b : SessionStatus) (hWF : WF st)
    (ha : statusOf st idv = some a)
    (hb : statusOf (runOps cfg st ops) idv = some b) :
    b = a ∨ b = .revoked := by
  induction ops generalizing st a with
  | nil =>
    have hb' : statusOf st idv = some b := hb
    rw [ha] at hb'
    exact Or.inl (Option.some_inj.mp hb').symm
  | cons op rest ih =>
    have hid : idv < st.nextId := by
      obtain ⟨s, hs, hsid, -⟩ := mem_of_statusOf_eq_some st idv a ha
      rw [← hsid]
      exact hWF.2 s hs
    rw [runOps_cons] at hb
    cases hstep : statusOf (stepOp cfg st op) idv with
    | none =>
      rw [runOps_none cfg (stepOp cfg st op) rest idv (wf_stepOp cfg st op hWF)
        (Nat.lt_of_lt_of_le hid (stepOp_nextId cfg st op)) hstep] at hb
      exact absurd hb (by simp)
    | some c =>
      obtain ⟨a', ha', hca⟩ := stepOp_status cfg st op idv c hWF hid hstep
      have haa : a' = a := by
        rw [ha] at ha'
        exact (Option.some_inj.mp ha').symm
      have hbc := ih (stepOp cfg st op) c (wf_stepOp cfg st op hWF) hstep hb
      rcases hbc with hbc | hbc
      · rcases hca with hca | hca
        · exact Or.inl (by rw [hbc, hca, haa])
        · exact Or.inr (by rw [hbc, hca])
      · exact Or.inr hbc

theorem mem_getUserActiveSessions {st : Store} {now uid limit offset : Nat}
    {u : Session} (h : u ∈ Store.getUserActiveSessions st now uid limit offset) :
    u ∈ st.rows ∧ u.userId = uid ∧ u.status = .active ∧ now < u.expiresAt := by
  unfold Store.getUserActiveSessions at h
  have h1 := List.mem_of_mem_take h
  have h2 := List.mem_of_mem_drop h1
  have h3 := List.mem_mergeSort.mp h2
  have h4 := List.of_mem_filter h3
  simp only [matchUserActive, decide_eq_true_eq] at h4
  exact ⟨List.mem_of_mem_filter h3, h4.1, h4.2.1, h4.2.2⟩

/-! ## Claim theorems -/

/-- C1 (amended): calling `ValidateRefreshToken` with the refresh secret
of a session whose `ExpiresAt` is in the past fails with the
`InvalidRefreshToken` error, but — contrary to the claim — the store is
left completely unchanged: the session's status is *not* flipped to
`Expired`, because `GetByRefreshToken` already filters out expired rows,
making the lazy-expiry branch unreachable. -/
theorem C1_expired_refresh (cfg : JWTConfig) (st : Store) (now : Nat)
    (token : String)
    (h : ∀ s ∈ st.rows, s.refreshToken = token → s.expiresAt < now) :
    ValidateRefreshToken cfg st now token =
      (.error "invalid refresh token", st) := by
  apply vrt_none
  unfold Store.getByRefreshToken
  rw [List.find?_eq_none]
  intro s hs
  simp only [matchToken, decide_eq_true_eq, not_and]
  intro h1 _
  have := h s hs h1
  omega

/-- Witness for C1: a store whose only session matches the token and is
expired at call time. -/
theorem C1_expired_refresh_witness :
    ValidateRefreshToken sampleCfg
        { rows := [sampleSession 1 7 "t" .active 5], nextId := 2 } 10 "t" =
      (.error "invalid refresh token",
        { rows := [sampleSession 1 7 "t" .active 5], nextId := 2 }) :=
  C1_expired_refresh sampleCfg
    { rows := [sampleSession 1 7 "t" .active 5], nextId := 2 } 10 "t"
    (by decide)

/-- C1 counterexample: for an `Active` session with `ExpiresAt = 5` looked
up at `now = 10`, the failure is returned but the persisted status stays
`Active` — it does *not* become `Expired` as the claim asserts. -/
theorem C1_counterexample :
    (ValidateRefreshToken sampleCfg
        { rows := [sampleSession 1 7 "t" .active 5], nextId := 2 }
        10 "t").1 = .error "invalid refresh token" ∧
    statusOf (ValidateRefreshToken sampleCfg
        { rows := [sampleSession 1 7 "t" .active 5], nextId := 2 }
        10 "t").2 1 = some .active ∧
    some SessionStatus.active ≠ some SessionStatus.expired :=
  ⟨rfl, by decide, by decide⟩

/-- C2: `CleanupExpiredSessions` (`PurgeStaleSessions`) keeps a row iff it
is neither past its expiry nor marked `Expired`: it removes exactly the
rows with `ExpiresAt < now` or `Status = Expired`, so `Active` unexpired
rows and `Revoked` unexpired rows are never removed. -/
theorem C2_purge_exact (st : Store) (now : Nat) (s : Session) :
    s ∈ (CleanupExpiredSessions st now).rows ↔
      s ∈ st.rows ∧ ¬ (s.expiresAt < now ∨ s.status = .expired) := by
  unfold CleanupExpiredSessions Store.deleteExpiredSessions
  dsimp only
  rw [List.mem_filter]
  simp

/-- C3: refreshing an `Active`, unexpired session returns the same refresh
secret (no rotation) and a freshly signed HS256 `access` credential
expiring `accessTokenExpiry` hours after the call; the session's
`ExpiresAt` is unchanged and its persisted `LastUsedAt` becomes the
refresh call time. -/
theorem C3_refresh_frame (cfg : JWTConfig) (st : Store) (now : Nat)
    (t ua ip jti : String) (s : Session) (hWF : WF st)
    (h : st.getByRefreshToken now t = some s) :
    ∃ tr, (RefreshAccessToken cfg st now t ua ip jti).1 = .ok tr ∧
      tr.refreshToken = t ∧
      tr.refreshExpiresAt = s.expiresAt ∧
      tr.expiresAt = now + cfg.accessTokenExpiry ∧
      tr.accessToken.claims.tokenType = "access" ∧
      tr.accessToken.claims.exp = some (now + cfg.accessTokenExpiry) ∧
      tr.accessToken.method = .hs256 ∧
      tr.accessToken.sigKey = some cfg.secretKey ∧
      ∀ u ∈ (RefreshAccessToken cfg st now t ua ip jti).2.rows,
        u.id = s.id → u.lastUsedAt = some now ∧ u.expiresAt = s.expiresAt := by
  obtain ⟨hmem, hrt, hact, hexp⟩ := getByRefreshToken_props h
  unfold RefreshAccessToken
  rw [vrt_ok cfg st now t s h]
  dsimp only
  have hA : (st.updateLastUsedAt s.id now).getByRefreshToken now t =
      some { s with lastUsedAt := some now } := by
    rw [getByRefreshToken_touch st s.id now now t, h]
    simp
  rw [hA]
  dsimp only
  refine ⟨_, rfl, rfl, rfl, rfl, rfl, rfl, rfl, rfl, ?_⟩
  split
  · -- `Update` (Save) branch
    intro u hu huid
    unfold Store.update Store.updateLastUsedAt at hu
    dsimp only at hu
    rw [List.map_map] at hu
    obtain ⟨v, hv, rfl⟩ := List.mem_map.mp hu
    have hvid : v.id = s.id := by
      revert huid
      simp only [Function.comp]
      by_cases h1 : v.id = s.id <;>
        by_cases h2 : (if v.id = s.id then { v with lastUsedAt := some now }
            else v).id = (coerceEmpty ((refreshSessionDiff
            { s with lastUsedAt := some now } ua ip).1)).id <;>
        simp [h1, h2, coerceEmpty_id, refreshSessionDiff_id]
    have hveq : v = s := eq_of_mem_of_id_eq st.rows hWF.1 hv hmem hvid
    subst hveq
    simp only [Function.comp, if_pos rfl]
    rw [if_pos (by simp [coerceEmpty_id, refreshSessionDiff_id])]
    constructor
    · rw [coerceEmpty_lastUsedAt, refreshSessionDiff_lastUsedAt]
    · rw [coerceEmpty_expiresAt, refreshSessionDiff_expiresAt]
  · -- no metadata change: only the `LastUsedAt` touch
    intro u hu huid
    unfold Store.updateLastUsedAt at hu
    dsimp only at hu
    obtain ⟨v, hv, rfl⟩ := List.mem_map.mp hu
    have hvid : v.id = s.id := by
      revert huid
      by_cases h1 : v.id = s.id <;> simp [h1]
    have hveq : v = s := eq_of_mem_of_id_eq st.rows hWF.1 hv hmem hvid
    subst hveq
    rw [if_pos rfl]
    exact ⟨rfl, rfl⟩

/-- Witness for C3: a concrete active unexpired session refreshed at
`now = 10`. -/
theorem C3_refresh_frame_witness :
    ∃ tr, (RefreshAccessToken sampleCfg
        { rows := [sampleSession 1 7 "t" .active 100], nextId := 2 }
        10 "t" "curl" "9.9.9.9" "j").1 = .ok tr ∧
      tr.refreshToken = "t" ∧
      tr.refreshExpiresAt = (sampleSession 1 7 "t" .active 100).expiresAt ∧
      tr.expiresAt = 10 + sampleCfg.accessTokenExpiry ∧
      tr.accessToken.claims.tokenType = "access" ∧
      tr.accessToken.claims.exp = some (10 + sampleCfg.accessTokenExpiry) ∧
      tr.accessToken.method = .hs256 ∧
      tr.accessToken.sigKey = some sampleCfg.secretKey ∧
      ∀ u ∈ (RefreshAccessToken sampleCfg
          { rows := [sampleSession 1 7 "t" .active 100], nextId := 2 }
          10 "t" "curl" "9.9.9.9" "j").2.rows,
        u.id = (sampleSession 1 7 "t" .active 100).id →
          u.lastUsedAt = some 10 ∧
          u.expiresAt = (sampleSession 1 7 "t" .active 100).expiresAt :=
  C3_refresh_frame sampleCfg
    { rows := [sampleSession 1 7 "t" .active 100], nextId := 2 }
    10 "t" "curl" "9.9.9.9" "j" (sampleSession 1 7 "t" .active 100)
    ⟨by decide, by decide⟩ (by decide)

/-- C4: after `RevokeSession sid`, refreshing with that session's secret
fails with the `InvalidRefreshToken` error and leaves the store unchanged
(so every subsequent attempt fails identically), and
`GetUserActiveSessions` no longer returns a session with that id. -/
theorem C4_revoke_blocks (cfg : JWTConfig) (st : Store) (now : Nat)
    (t ua ip jti : String) (sid uid limit offset : Nat)
    (htok : ∀ u ∈ st.rows, u.refreshToken = t → u.id = sid) :
    (RefreshAccessToken cfg (RevokeSession st sid) now t ua ip jti).1 =
        .error "invalid refresh token" ∧
    (RefreshAccessToken cfg (RevokeSession st sid) now t ua ip jti).2 =
        RevokeSession st sid ∧
    ∀ u ∈ GetUserActiveSessions (RevokeSession st sid) now uid limit offset,
      u.id ≠ sid := by
  have hnone : (RevokeSession st sid).getByRefreshToken now t = none := by
    unfold RevokeSession Store.revokeSession Store.getByRefreshToken
    dsimp only
    rw [List.find?_eq_none]
    intro u hu
    obtain ⟨v, hv, rfl⟩ := List.mem_map.mp hu
    by_cases h1 : v.id = sid
    · rw [if_pos h1]
      simp [matchToken]
    · rw [if_neg h1]
      simp only [matchToken, decide_eq_true_eq, not_and]
      intro hrt _
      exact absurd (htok v hv hrt) h1
  refine ⟨?_, ?_, ?_⟩
  · unfold RefreshAccessToken
    rw [vrt_none cfg _ now t hnone]
  · unfold RefreshAccessToken
    rw [vrt_none cfg _ now t hnone]
  · intro u hu
    obtain ⟨humem, -, hust, -⟩ := mem_getUserActiveSessions hu
    unfold RevokeSession Store.revokeSession at humem
    dsimp only at humem
    obtain ⟨v, hv, rfl⟩ := List.mem_map.mp humem
    by_cases h1 : v.id = sid
    · rw [if_pos h1] at hust
      simp at hust
    · rw [if_neg h1]
      exact h1

/-- Witness for C4: one active unexpired session, revoked by id, then a
refresh attempt and an active-session listing by its owner. -/
theorem C4_revoke_blocks_witness :
    (RefreshAccessToken sampleCfg (RevokeSession sampleStore1 1)
        10 "t" "curl" "9.9.9.9" "j").1 = .error "invalid refresh token" ∧
    (RefreshAccessToken sampleCfg (RevokeSession sampleStore1 1)
        10 "t" "curl" "9.9.9.9" "j").2 = RevokeSession sampleStore1 1 ∧
    ∀ u ∈ GetUserActiveSessions (RevokeSession sampleStore1 1) 10 7 10 0,
      u.id ≠ 1 :=
  C4_revoke_blocks sampleCfg sampleStore1
    10 "t" "curl" "9.9.9.9" "j" 1 7 10 0 (by decide)

/-- C5 counterexample: with a 48-hour access lifetime, the issuer sets
the session expiry to `48 / 24 * 2 = 4` days (96 hours from `now = 0`),
not `2 × 48 = 96` days (2304 hours) as the claim states. -/
theorem C5_counterexample :
    (GenerateTokens (NewJWTService "k" 48) { rows := [], nextId := 1 } 0
        "rt" "j" 7 "e" "u" "" "").1.map TokenResponse.refreshExpiresAt =
      .ok 96 ∧ (96 : Nat) ≠ 0 + 2 * 48 * 24 :=
  ⟨rfl, by decide⟩

/-- C5 (amended): the access credential expires `accessTokenExpiry` hours
after issuance; the session expires 30 days after issuance when the
access lifetime is at most 24 hours, and `accessTokenExpiry / 24 * 2`
days (integer division) — not `2 × accessTokenExpiry` days — when it
exceeds 24 hours. -/
theorem C5_expiries (key : String) (h : Nat) (st : Store) (now : Nat)
    (rt jti : String) (uid : Nat) (email uname ua ip : String)
    (hWF : WF st) :
    ∃ tr,
      (GenerateTokens (NewJWTService key h) st now rt jti uid email uname
        ua ip).1 = .ok tr ∧
      tr.expiresAt = now + h ∧
      tr.accessToken.claims.exp = some (now + h) ∧
      tr.refreshExpiresAt = now + (if h > 24 then h / 24 * 2 else 30) * 24 ∧
      tr.sessionID = st.nextId ∧
      ∀ u ∈ (GenerateTokens (NewJWTService key h) st now rt jti uid email
          uname ua ip).2.rows,
        u.id = st.nextId →
          u.status = .active ∧
          u.expiresAt = now + (if h > 24 then h / 24 * 2 else 30) * 24 := by
  unfold GenerateTokens NewJWTService
  dsimp only
  refine ⟨_, rfl, rfl, rfl, rfl, rfl, ?_⟩
  intro u hu huid
  unfold Store.create at hu
  dsimp only at hu
  rcases List.mem_append.mp hu with hmem | hmem
  · have := hWF.2 u hmem
    omega
  · rw [List.mem_singleton] at hmem
    subst hmem
    constructor
    · show (storedRow st _ now).status = .active
      unfold storedRow
      dsimp only
      rw [coerceEmpty_status, setIPAddress_status, setUserAgent_status]
    · show (storedRow st _ now).expiresAt = _
      unfold storedRow
      dsimp only
      rw [coerceEmpty_expiresAt, setIPAddress_expiresAt, setUserAgent_expiresAt]

/-- Witness for C5: issuing with a 48-hour access lifetime over an empty
store. -/
theorem C5_expiries_witness :
    ∃ tr,
      (GenerateTokens (NewJWTService "k" 48) { rows := [], nextId := 1 } 0
        "rt" "j" 7 "e" "u" "" "").1 = .ok tr ∧
      tr.expiresAt = 0 + 48 ∧
      tr.accessToken.claims.exp = some (0 + 48) ∧
      tr.refreshExpiresAt = 0 + (if 48 > 24 then 48 / 24 * 2 else 30) * 24 ∧
      tr.sessionID = 1 ∧
      ∀ u ∈ (GenerateTokens (NewJWTService "k" 48) { rows := [], nextId := 1 }
          0 "rt" "j" 7 "e" "u" "" "").2.rows,
        u.id = 1 →
          u.status = .active ∧
          u.expiresAt = 0 + (if 48 > 24 then 48 / 24 * 2 else 30) * 24 :=
  C5_expiries "k" 48 { rows := [], nextId := 1 } 0 "rt" "j" 7 "e" "u" "" ""
    ⟨by decide, by decide⟩

/-- C6 counterexample: `RevokeSession` has no status filter, so an
explicit revoke of an `Expired` session moves it to `Revoked` — `Expired`
is not terminal, contradicting the claim that no session's status ever
leaves `Expired`. -/
theorem C6_counterexample :
    statusOf { rows := [sampleSession 1 7 "tok" .expired 100], nextId := 2 }
      1 = some .expired ∧
    statusOf (stepOp sampleCfg
      { rows := [sampleSession 1 7 "tok" .expired 100], nextId := 2 }
      (.revokeSession 1)) 1 = some .revoked := by
  decide

/-- C6 (amended): over every sequence of issuer operations, a session's
persisted status either stays what it was or becomes `Revoked`.  Hence no
session ever returns to `Active` and `Revoked` is terminal; but `Expired`
is terminal only up to explicit revocation — `RevokeSession` /
`RevokeSessionByToken` move an `Expired` session to `Revoked`.  (The
`Active → Expired` lazy flip is unreachable, since the lookup filters out
expired rows.) -/
theorem C6_status_machine (cfg : JWTConfig) (st : Store) (ops : List Op)
    (idv : Nat) (a b : SessionStatus) (hWF : WF st)
    (ha : statusOf st idv = some a)
    (hb : statusOf (runOps cfg st ops) idv = some b) :
    b = a ∨ b = .revoked :=
  runOps_status cfg st ops idv a b hWF ha hb

/-- Witness for C6: one active session revoked by an explicit operation
sequence. -/
theorem C6_status_machine_witness :
    SessionStatus.revoked = SessionStatus.active ∨
      SessionStatus.revoked = SessionStatus.revoked :=
  C6_status_machine sampleCfg sampleStore1 [.revokeSession 1] 1
    .active .revoked ⟨by decide, by decide⟩ (by decide) (by decide)

theorem find?_token_append (rows : List Session) (A : Session) (t : String)
    (nowq : Nat) (hfresh : ∀ u ∈ rows, u.refreshToken ≠ t)
    (hArt : A.refreshToken = t) (hAst : A.status = .active)
    (hexp : nowq < A.expiresAt) :
    (rows ++ [A]).find? (matchToken t nowq) = some A := by
  rw [List.find?_append]
  have hl : rows.find? (matchToken t nowq) = none := by
    rw [List.find?_eq_none]
    intro u hu
    simp only [matchToken, decide_eq_true_eq, not_and]
    intro hrt
    exact absurd hrt (hfresh u hu)
  rw [hl]
  simp [List.find?, matchToken, hArt, hAst, hexp]

/-- The row created by `GenerateTokens` with origin address `"::1"`: it is
appended to the store, active, carries the refresh secret verbatim, the
normalized loopback `"127.0.0.1"`, and the given device label. -/
theorem genRow_props (cfg : JWTConfig) (st : Store) (now : Nat)
    (rt jti : String) (uid : Nat) (email uname ua : String) :
    ∃ A, (GenerateTokens cfg st now rt jti uid email uname ua "::1").2.rows =
        st.rows ++ [A] ∧
      A.id = st.nextId ∧ A.refreshToken = rt ∧ A.status = .active ∧
      A.expiresAt = now + cfg.refreshTokenExpiry * 24 ∧
      A.userAgent.getD "" = ua ∧ A.ipAddress = some "127.0.0.1" := by
  unfold GenerateTokens Store.create
  dsimp only
  refine ⟨_, rfl, ?_, ?_, ?_, ?_, ?_, ?_⟩ <;>
    by_cases hua : ua = "" <;>
      simp [storedRow, coerceEmpty, coerceIP, coerceUA,
        Session.setIPAddress, Session.setUserAgent, hua]

/-- When the stored metadata already equals the normalized incoming
metadata (`"::1"` folds to `"127.0.0.1"`), the diffing block registers no
change. -/
theorem refreshSessionDiff_noop (B : Session) (ua : String)
    (hua : B.userAgent.getD "" = ua) (hip : B.ipAddress = some "127.0.0.1") :
    refreshSessionDiff B ua "::1" = (B, false) := by
  unfold refreshSessionDiff
  dsimp only
  simp [hua, hip]

/-- A refresh whose incoming device label and (normalized) address match
the stored ones performs only the `LastUsedAt` touch: no `Update` call. -/
theorem refresh_no_update (cfg : JWTConfig) (st : Store) (now : Nat)
    (t ua jti : String) (s : Session)
    (h : st.getByRefreshToken now t = some s)
    (hua : s.userAgent.getD "" = ua)
    (hip : s.ipAddress = some "127.0.0.1") :
    (RefreshAccessToken cfg st now t ua "::1" jti).2 =
      st.updateLastUsedAt s.id now := by
  unfold RefreshAccessToken
  rw [vrt_ok cfg st now t s h]
  dsimp only
  have hA : (st.updateLastUsedAt s.id now).getByRefreshToken now t =
      some { s with lastUsedAt := some now } := by
    rw [getByRefreshToken_touch st s.id now now t, h]
    simp
  rw [hA]
  dsimp only
  rw [refreshSessionDiff_noop { s with lastUsedAt := some now } ua
    (by simpa using hua) (by simpa using hip)]
  simp

/-- C7: issuing with origin address `"::1"` stores `"127.0.0.1"`; a
refresh presenting `"::1"` (same device label) finds the stored
normalized form equal to the normalized incoming form and performs no
device/address session update — the store changes only by the
`LastUsedAt` touch — and a second consecutive refresh likewise performs
none. -/
theorem C7_ip_normalization (cfg : JWTConfig) (st : Store)
    (now now₁ now₂ : Nat) (rt jti jti₁ jti₂ : String) (uid : Nat)
    (email uname ua : String)
    (hfresh : ∀ u ∈ st.rows, u.refreshToken ≠ rt)
    (h₁ : now₁ < now + cfg.refreshTokenExpiry * 24)
    (h₂ : now₂ < now + cfg.refreshTokenExpiry * 24) :
    (RefreshAccessToken cfg
        (GenerateTokens cfg st now rt jti uid email uname ua "::1").2
        now₁ rt ua "::1" jti₁).2 =
      Store.updateLastUsedAt
        (GenerateTokens cfg st now rt jti uid email uname ua "::1").2
        st.nextId now₁ ∧
    (RefreshAccessToken cfg
        (Store.updateLastUsedAt
          (GenerateTokens cfg st now rt jti uid email uname ua "::1").2
          st.nextId now₁)
        now₂ rt ua "::1" jti₂).2 =
      Store.updateLastUsedAt
        (Store.updateLastUsedAt
          (GenerateTokens cfg st now rt jti uid email uname ua "::1").2
          st.nextId now₁)
        st.nextId now₂ := by
  obtain ⟨A, hrows, hAid, hArt, hAst, hAexp, hAua, hAip⟩ :=
    genRow_props cfg st now rt jti uid email uname ua
  have hlook₁ : (GenerateTokens cfg st now rt jti uid email uname ua
      "::1").2.getByRefreshToken now₁ rt = some A := by
    unfold Store.getByRefreshToken
    rw [hrows]
    exact find?_token_append st.rows A rt now₁ hfresh hArt hAst
      (by omega)
  have hlook₁' : (GenerateTokens cfg st now rt jti uid email uname ua
      "::1").2.getByRefreshToken now₂ rt = some A := by
    unfold Store.getByRefreshToken
    rw [hrows]
    exact find?_token_append st.rows A rt now₂ hfresh hArt hAst
      (by omega)
  constructor
  · rw [refresh_no_update cfg _ now₁ rt ua jti₁ A hlook₁ hAua hAip, hAid]
  · have hlook₂ : (Store.updateLastUsedAt
        (GenerateTokens cfg st now rt jti uid email uname ua "::1").2
        st.nextId now₁).getByRefreshToken now₂ rt =
        some { A with lastUsedAt := some now₁ } := by
      rw [getByRefreshToken_touch _ st.nextId now₁ now₂ rt, hlook₁']
      simp [hAid]
    rw [refresh_no_update cfg _ now₂ rt ua jti₂
      { A with lastUsedAt := some now₁ } hlook₂ (by simpa using hAua)
      (by simpa using hAip)]
    have : ({ A with lastUsedAt := some now₁ } : Session).id = st.nextId := by
      simpa using hAid
    rw [this]

/-- Witness for C7: issuing over the empty store with address `"::1"` and
refreshing twice. -/
theorem C7_ip_normalization_witness :
    (RefreshAccessToken sampleCfg
        (GenerateTokens sampleCfg { rows := [], nextId := 1 } 0 "rt" "j" 7
          "e" "u" "curl" "::1").2 1 "rt" "curl" "::1" "j1").2 =
      Store.updateLastUsedAt
        (GenerateTokens sampleCfg { rows := [], nextId := 1 } 0 "rt" "j" 7
          "e" "u" "curl" "::1").2 1 1 ∧
    (RefreshAccessToken sampleCfg
        (Store.updateLastUsedAt
          (GenerateTokens sampleCfg { rows := [], nextId := 1 } 0 "rt" "j" 7
            "e" "u" "curl" "::1").2 1 1) 2 "rt" "curl" "::1" "j2").2 =
      Store.updateLastUsedAt
        (Store.updateLastUsedAt
          (GenerateTokens sampleCfg { rows := [], nextId := 1 } 0 "rt" "j" 7
            "e" "u" "curl" "::1").2 1 1) 1 2 :=
  C7_ip_normalization sampleCfg { rows := [], nextId := 1 } 0 1 2 "rt" "j"
    "j1" "j2" 7 "e" "u" "curl" (by decide) (by decide) (by decide)

/-- C8: a sweep tick increments the total-run counter and invokes the
purge (`CleanupExpiredSessions`; a store failure leaves the rows as they
were); on a failed purge the failed-run counter is incremented while the
`running` flag and the goroutine's select loop are untouched, so the next
tick performs another sweep (total-run counter reaches `+2`). -/
theorem C8_sweep (s : Sched) (now now₂ : Nat) (err err₂ : Bool)
    (hpc : s.pc = .selectLoop) (hstop : s.stopClosed = false)
    (hrun : s.running = true) :
    (schedStep s (.taskTick now err)).totalRuns = s.totalRuns + 1 ∧
    (schedStep s (.taskTick now err)).store =
      (if err then s.store else CleanupExpiredSessions s.store now) ∧
    (err = true → (schedStep s (.taskTick now err)).failedRuns =
      s.failedRuns + 1) ∧
    (schedStep s (.taskTick now err)).running = true ∧
    (schedStep s (.taskTick now err)).pc = .selectLoop ∧
    (schedStep s (.taskTick now err)).stopClosed = false ∧
    (schedStep (schedStep s (.taskTick now err))
        (.taskTick now₂ err₂)).totalRuns = s.totalRuns + 2 := by
  cases err <;> cases err₂ <;>
    simp [schedStep, performCleanup, hpc, hstop, hrun]

/-- Witness for C8: a failing sweep on a concrete running scheduler,
followed by another tick. -/
theorem C8_sweep_witness :
    (schedStep sampleSched (.taskTick 7 true)).totalRuns =
      sampleSched.totalRuns + 1 ∧
    (schedStep sampleSched (.taskTick 7 true)).store =
      (if true then sampleSched.store
       else CleanupExpiredSessions sampleSched.store 7) ∧
    (true = true → (schedStep sampleSched (.taskTick 7 true)).failedRuns =
      sampleSched.failedRuns + 1) ∧
    (schedStep sampleSched (.taskTick 7 true)).running = true ∧
    (schedStep sampleSched (.taskTick 7 true)).pc = .selectLoop ∧
    (schedStep sampleSched (.taskTick 7 true)).stopClosed = false ∧
    (schedStep (schedStep sampleSched (.taskTick 7 true))
        (.taskTick 8 false)).totalRuns = sampleSched.totalRuns + 2 :=
  C8_sweep sampleSched 7 8 true false rfl rfl rfl

theorem schedStep_inv (x : Sched) (e : SchedEvent) (base : Nat)
    (hx : x.running = true ∧ x.stopClosed = true ∧
      ((x.pc = .initialSweep ∧ x.totalRuns = base) ∨
        (x.pc ≠ .initialSweep ∧ x.totalRuns ≤ base + 1)))
    (he : e ≠ .start ∧ e ≠ .stop) :
    (schedStep x e).running = true ∧ (schedStep x e).stopClosed = true ∧
      (((schedStep x e).pc = .initialSweep ∧
          (schedStep x e).totalRuns = base) ∨
        ((schedStep x e).pc ≠ .initialSweep ∧
          (schedStep x e).totalRuns ≤ base + 1)) := by
  obtain ⟨hr, hs, hdisj⟩ := hx
  cases e with
  | start => exact absurd rfl he.1
  | stop => exact absurd rfl he.2
  | taskInit now err =>
    by_cases hpc : x.pc = .initialSweep
    · rcases hdisj with ⟨-, hruns⟩ | ⟨hne, -⟩
      · cases err <;>
          simp [schedStep, performCleanup, hpc, hr, hs, hruns]
      · exact absurd hpc hne
    · simp only [schedStep]
      rw [if_neg hpc]
      exact ⟨hr, hs, hdisj⟩
  | taskTick now err =>
    simp only [schedStep]
    rw [if_neg (by simp [hs])]
    exact ⟨hr, hs, hdisj⟩
  | taskStop =>
    by_cases hc : x.pc = .selectLoop ∧ x.stopClosed = true
    · rcases hdisj with ⟨hpc, -⟩ | ⟨-, hruns⟩
      · rw [hc.1] at hpc
        exact absurd hpc (by simp)
      · simp only [schedStep]
        rw [if_pos hc]
        exact ⟨hr, hs, Or.inr ⟨by simp, hruns⟩⟩
    · simp only [schedStep]
      rw [if_neg hc]
      exact ⟨hr, hs, hdisj⟩

theorem schedRun_inv (evs : List SchedEvent) (x : Sched) (base : Nat)
    (hx : x.running = true ∧ x.stopClosed = true ∧
      ((x.pc = .initialSweep ∧ x.totalRuns = base) ∨
        (x.pc ≠ .initialSweep ∧ x.totalRuns ≤ base + 1)))
    (hevs : ∀ e ∈ evs, e ≠ .start ∧ e ≠ .stop) :
    (schedRun x evs).running = true ∧ (schedRun x evs).stopClosed = true ∧
      (((schedRun x evs).pc = .initialSweep ∧
          (schedRun x evs).totalRuns = base) ∨
        ((schedRun x evs).pc ≠ .initialSweep ∧
          (schedRun x evs).totalRuns ≤ base + 1)) := by
  induction evs generalizing x with
  | nil => exact hx
  | cons e rest ih =>
    exact ih (schedStep x e)
      (schedStep_inv x e base hx (hevs e (by simp)))
      (fun e' he' => hevs e' (by simp [he']))

/-- C9: from the state `Stop()` leaves behind (stop channel closed, task
exited, `running` cleared), a new `Start()` sets `running` and spawns a
task, but the stop channel is never recreated; under any further schedule
of task events (and no further `Start`/`Stop`) the task performs at most
its one initial sweep — ticks never sweep because the closed stop channel
wins the select — while `IsRunning` keeps reporting `true`. -/
theorem C9_not_restartable (s : Sched) (evs : List SchedEvent)
    (hstop : s.stopClosed = true) (hrun : s.running = false)
    (hexited : s.pc = .exited)
    (hevs : ∀ e ∈ evs, e ≠ .start ∧ e ≠ .stop) :
    (schedStep s .start).running = true ∧
    (schedStep s .start).pc = .initialSweep ∧
    (schedStep s .start).stopClosed = true ∧
    IsRunning (schedRun (schedStep s .start) evs) = true ∧
    (schedRun (schedStep s .start) evs).totalRuns ≤ s.totalRuns + 1 := by
  have hstart : schedStep s .start =
      { s with running := true, pc := .initialSweep } := by
    show (if s.running = true then s else _) = _
    rw [if_neg (by simp [hrun])]
  have hinv := schedRun_inv evs (schedStep s .start) s.totalRuns
    (by rw [hstart]; exact ⟨rfl, hstop, Or.inl ⟨rfl, rfl⟩⟩) hevs
  refine ⟨by rw [hstart], by rw [hstart], by rw [hstart]; exact hstop,
    hinv.1, ?_⟩
  rcases hinv.2.2 with ⟨-, hruns⟩ | ⟨-, hruns⟩
  · omega
  · exact hruns

/-- Witness for C9: the concrete stopped scheduler, restarted and driven
through an initial sweep, a stop-channel receive, and a tick. -/
theorem C9_not_restartable_witness :
    (schedStep sampleStoppedSched .start).running = true ∧
    (schedStep sampleStoppedSched .start).pc = .initialSweep ∧
    (schedStep sampleStoppedSched .start).stopClosed = true ∧
    IsRunning (schedRun (schedStep sampleStoppedSched .start)
      [.taskInit 9 false, .taskStop, .taskTick 10 false]) = true ∧
    (schedRun (schedStep sampleStoppedSched .start)
        [.taskInit 9 false, .taskStop, .taskTick 10 false]).totalRuns ≤
      sampleStoppedSched.totalRuns + 1 :=
  C9_not_restartable sampleStoppedSched
    [.taskInit 9 false, .taskStop, .taskTick 10 false]
    rfl rfl rfl (by decide)

/-- C10: `parseToken` — and hence `ValidateToken` — returns an error and
never claims for every token whose signing method is not an HMAC variant
or whose signature does not verify under the configured secret (unsigned
tokens included); contrapositively, claims are returned only for tokens
HMAC-signed under the configured secret key. -/
theorem C10_hmac_only (cfg : JWTConfig) (now : Nat) (tok : RawToken)
    (h : tok.method.isHMAC = false ∨ tok.sigKey ≠ some cfg.secretKey) :
    (∃ e, parseToken cfg now tok = .error e) ∧
    (∃ e, ValidateToken cfg now tok = .error e) ∧
    ∀ c, ValidateToken cfg now tok ≠ .ok c := by
  have hp : ∃ e, parseToken cfg now tok = .error e := by
    unfold parseToken
    rcases h with h | h
    · exact ⟨_, if_pos (by simp [h])⟩
    · by_cases hm : tok.method.isHMAC = true
      · rw [if_neg (by simp [hm]), if_pos h]
        exact ⟨_, rfl⟩
      · rw [if_pos (by simp [hm])]
        exact ⟨_, rfl⟩
  obtain ⟨e, hp⟩ := hp
  refine ⟨⟨e, hp⟩, ⟨e, ?_⟩, ?_⟩
  · unfold ValidateToken
    rw [hp]
  · intro c
    unfold ValidateToken
    rw [hp]
    simp

/-- Witness for C10: a token with an RSA header, otherwise well-formed,
even carrying the right key. -/
theorem C10_hmac_only_witness :
    (∃ e, parseToken sampleCfg 5 sampleBadToken = .error e) ∧
    (∃ e, ValidateToken sampleCfg 5 sampleBadToken = .error e) ∧
    ∀ c, ValidateToken sampleCfg 5 sampleBadToken ≠ .ok c :=
  C10_hmac_only sampleCfg 5 sampleBadToken (Or.inl (by decide))

end LinkedinClone
